import Mathlib

/-!
Verification of the leo-subscribers event-consumption and subscription-ledger
engine.  Shallow embedding of:

* `addSubscription` / `processSubscriptionTransfer` / `HiveMonitor.processOperation`
  (src/monitor-subscriptions.js, first variant)
* `CircuitBreaker` (src/logger.js, circuit-breaker part)
* `RetryOperation` (src/retry.js)
* `HiveMonitor.connect` / `HiveMonitor.handleDisconnect` (src/monitor-subscriptions.js)

JS strings are modelled as `List Char`; JS `Date` values as a Gregorian
calendar record with JS-style 0-based months plus a milliseconds-of-day
component; numeric payment amounts (`parseFloat` results compared only for
equality) as `ℚ`.
-/

set_option maxRecDepth 4000

/-- JS strings, modelled as lists of characters. -/
abbrev Str := List Char

/-! ## JS `Date` model

`new Date()` values carry a calendar date and a time of day.  The code uses
`getDate()` (1-based day of month), `setDate(n)` (sets the day of month to
`n`, rolling over into later months exactly as JS does for `n ≥ 1`), and
ordinary `<`/`>` timestamp comparison.  Months are 0-based (January = 0),
matching JS. -/

/-- Gregorian leap-year rule (as implemented by JS `Date`). -/
def isLeapYear (y : Nat) : Bool :=
  y % 4 == 0 && (y % 100 != 0 || y % 400 == 0)

/-- Number of days of month `m` (0-based) in year `y`. -/
def daysInMonth (y m : Nat) : Nat :=
  if m = 1 then (if isLeapYear y then 29 else 28)
  else if m = 3 ∨ m = 5 ∨ m = 8 ∨ m = 10 then 30
  else 31

/-- A JS `Date`: year, 0-based month, 1-based day of month, and the
milliseconds-of-day component (hours/minutes/seconds/ms folded together,
irrelevant to the day arithmetic but part of timestamp comparison). -/
structure Date where
  year : Nat
  month : Nat
  day : Nat
  ms : Nat
  deriving DecidableEq, Repr

/-- Roll an out-of-range day-of-month forward into later months, as JS
`setDate` does.  `fuel` bounds the recursion; every step removes at least 28
days, so `fuel = d` always suffices for the call sites below. -/
def normDayAux : Nat → Nat → Nat → Nat → Nat × Nat × Nat
  | 0, y, m, d => (y, m, d)
  | fuel + 1, y, m, d =>
    if d ≤ daysInMonth y m then (y, m, d)
    else if 11 ≤ m then normDayAux fuel (y + 1) 0 (d - daysInMonth y m)
    else normDayAux fuel y (m + 1) (d - daysInMonth y m)

/-- JS `dt.setDate(n)` for `n ≥ 1`: set the day of month to `n` and
normalize, keeping the time of day. -/
def jsSetDate (dt : Date) (n : Nat) : Date :=
  let r := normDayAux n dt.year dt.month n
  ⟨r.1, r.2.1, r.2.2, dt.ms⟩

/-- `dt.setDate(dt.getDate() + k)`, the idiom the code uses to add `k` days. -/
def jsAddDays (dt : Date) (k : Nat) : Date :=
  jsSetDate dt (dt.day + k)

/-- JS `<` on `Date` timestamps (lexicographic on normalized dates). -/
def dateLtB (a b : Date) : Bool :=
  if a.year ≠ b.year then decide (a.year < b.year)
  else if a.month ≠ b.month then decide (a.month < b.month)
  else if a.day ≠ b.day then decide (a.day < b.day)
  else decide (a.ms < b.ms)

/-! ## Subscription ledger (table `subscriptions`)

`init.sql`: `active_subscription BOOLEAN NOT NULL DEFAULT TRUE`, username
unique.  The `date_updated` column is not modelled (no claim mentions it). -/

/-- One row of the `subscriptions` table. -/
structure SubRow where
  subscription_date : Date
  expiration_date : Date
  active : Bool
  deriving DecidableEq, Repr

/-- The `subscriptions` table, keyed by username. -/
def DB := Str → Option SubRow

/-- Empty table. -/
def emptyDB : DB := fun _ => none

/-- The single upsert statement of `addSubscription`:
`INSERT ... ON CONFLICT (username) DO UPDATE SET subscription_date = $2,
expiration_date = $3, active_subscription = TRUE`.  A fresh insert gets
`active_subscription` from the `DEFAULT TRUE` in init.sql, so both paths
store `active = true`. -/
def dbUpsert (db : DB) (username : Str) (sd ed : Date) : DB :=
  fun x => if x = username then some ⟨sd, ed, true⟩ else db x

/-- `addSubscription(username, days)` (src/monitor-subscriptions.js lines
417-476).  `now` stands for the `new Date()` taken at entry.  Returns the
table after the call and the boolean result (`true` also on the no-op
path).  Mirrors the source:

* `expirationDate` is first set to `now` plus `days` via
  `setDate(getDate() + days)`;
* if a row exists and `subscriptionDate > currentExpirationDate`, the code
  runs `expirationDate.setDate(subscriptionDate.getDate() + days)` a second
  time (on the already-advanced date) before the upsert;
* if a row exists and the window is still active, it logs and returns
  `true` without touching the table;
* otherwise it upserts `(username, subscriptionDate, expirationDate)`. -/
def addSubscription (db : DB) (username : Str) (days : Nat) (now : Date) :
    DB × Bool :=
  let subscriptionDate := now
  let expirationDate := jsAddDays now days
  match db username with
  | some row =>
    let currentExpirationDate := row.expiration_date
    if dateLtB currentExpirationDate subscriptionDate then
      let expirationDate := jsSetDate expirationDate (subscriptionDate.day + days)
      (dbUpsert db username subscriptionDate expirationDate, true)
    else
      (db, true)
  | none => (dbUpsert db username subscriptionDate expirationDate, true)

/-- A sequence of payment-driven grants to one username, processed in order:
each element is the `new Date()` of the grant and the day count. -/
def grantSeq (db : DB) (username : Str) : List (Date × Nat) → DB
  | [] => db
  | (t, d) :: rest => grantSeq (addSubscription db username d t).1 username rest

/-! ## Transfer classifier (src/monitor-subscriptions.js lines 141-209 and 360-415)

Amount strings are split and parsed with `parseFloat` and compared only for
numeric equality against `Number(process.env....)`; the parsed values are
modelled as exact rationals. -/

/-- ASCII lower-casing of one character (what `toLowerCase` does on the
ASCII account names and memos this code handles). -/
def toLowerChar (c : Char) : Char :=
  if 'A' ≤ c ∧ c ≤ 'Z' then Char.ofNat (c.toNat + 32) else c

/-- JS `s.toLowerCase()` on ASCII strings. -/
def lowerAscii (s : Str) : Str := s.map toLowerChar

/-- The literal `"subscribe:"` (10 characters). -/
def subscribeLit : Str := ['s', 'u', 'b', 's', 'c', 'r', 'i', 'b', 'e', ':']

/-- The literal `"HBD"`. -/
def hbd : Str := ['H', 'B', 'D']

/-- The literal `"transfer"`. -/
def transferLit : Str := ['t', 'r', 'a', 'n', 's', 'f', 'e', 'r']

/-- The literal `"fill_recurrent_transfer"`. -/
def fillRecurrentLit : Str :=
  ['f', 'i', 'l', 'l', '_', 'r', 'e', 'c', 'u', 'r', 'r', 'e', 'n', 't',
   '_', 't', 'r', 'a', 'n', 's', 'f', 'e', 'r']

/-- A JS regex `\w` character: `[A-Za-z0-9_]`. -/
def isWordChar (c : Char) : Bool :=
  ('a' ≤ c && c ≤ 'z') || ('A' ≤ c && c ≤ 'Z') || ('0' ≤ c && c ≤ '9') || c == '_'

/-- `memo.match(/^subscribe:(\w+)$/)`: succeeds exactly when the memo is the
literal lowercase `subscribe:` followed by one or more word characters, and
returns the captured group.  The regex is case-sensitive on the prefix. -/
def memoParse (memo : Str) : Option Str :=
  if memo.take 10 = subscribeLit ∧ memo.drop 10 ≠ [] ∧ (memo.drop 10).all isWordChar
  then some (memo.drop 10) else none

/-- The environment-derived configuration read via `process.env`. -/
structure Config where
  SUBSCRIPTION_PAYMENT_ACCOUNT : Str
  AI_PAYMENT_ACCOUNT : Str
  SUBSCRIPTION_AMOUNT : ℚ
  SUBSCRIPTION_ACCOUNT : Str
  AI_SUBSCRIPTION_FULL_AMOUNT : ℚ
  AI_SUBSCRIPTION_MINI_AMOUNT : ℚ
  AI_SUBSCRIPTION_FULL_DAYS : Nat
  AI_SUBSCRIPTION_MINI_DAYS : Nat

/-- A raw upstream operation as seen by `processOperation`: whether
`operation.op` is an array, the op type tag, and the fields of `opData`.
`opData.amount` is a string `"<value> <symbol>"`; its two halves after
`split(' ')`/`parseFloat` appear here as `amountValue`/`amountSymbol`.
`opData.from` is `sender`; `opData.to` is `toAccount` (`to` is reserved in
Lean). -/
structure RawOp where
  isArrayOp : Bool
  opType : Str
  sender : Str
  toAccount : Str
  amountValue : ℚ
  amountSymbol : Str
  memo : Str

/-- The `transformedTransfer` record (the `symbol` field is hard-coded to
`'HBD'` by the code at line 171). -/
structure Transfer where
  sender : Str
  recipient : Str
  value : ℚ
  symbol : Str
  memo : Str

/-- `processSubscriptionTransfer(transfer)` (lines 360-415), up to the final
`addSubscription` call: returns `some (username, days)` when it invokes
`addSubscription(username, days)`, `none` when it returns `false` or falls
through.  The AI block falls through to the standard check when the amount
matches neither AI tier, exactly as the source does. -/
def processSubscriptionTransfer (cfg : Config) (t : Transfer) :
    Option (Str × Nat) :=
  if t.recipient = cfg.AI_PAYMENT_ACCOUNT ∧ t.symbol = hbd ∧
      t.value = cfg.AI_SUBSCRIPTION_FULL_AMOUNT then
    some (t.sender, cfg.AI_SUBSCRIPTION_FULL_DAYS)
  else if t.recipient = cfg.AI_PAYMENT_ACCOUNT ∧ t.symbol = hbd ∧
      t.value = cfg.AI_SUBSCRIPTION_MINI_AMOUNT then
    some (t.sender, cfg.AI_SUBSCRIPTION_MINI_DAYS)
  else if t.recipient = cfg.SUBSCRIPTION_PAYMENT_ACCOUNT ∧
      t.value = cfg.SUBSCRIPTION_AMOUNT ∧ t.symbol = hbd then
    match memoParse t.memo with
    | none => none
    | some acct =>
      if lowerAscii acct = lowerAscii cfg.SUBSCRIPTION_ACCOUNT then
        some (t.sender, 31)
      else none
  else none

/-- `HiveMonitor.processOperation(operation)` (lines 141-209) composed with
`processSubscriptionTransfer`: the classification decision for one delivered
operation, returning `some (username, days)` exactly when the pipeline
reaches `addSubscription(username, days)`.  The surrounding
`this.retry.execute` wrapper re-runs the same deterministic computation and
is dropped; the try/catch around the grant only swallows persistence
errors. -/
def processOperation (cfg : Config) (op : RawOp) : Option (Str × Nat) :=
  if op.isArrayOp then
    if (op.opType = transferLit ∨ op.opType = fillRecurrentLit) ∧
        (op.toAccount = cfg.SUBSCRIPTION_PAYMENT_ACCOUNT ∨ op.toAccount = cfg.AI_PAYMENT_ACCOUNT) then
      let t : Transfer := ⟨op.sender, op.toAccount, op.amountValue, hbd, op.memo⟩
      if op.toAccount = cfg.AI_PAYMENT_ACCOUNT ∧ op.amountSymbol = hbd then
        if op.amountValue = cfg.AI_SUBSCRIPTION_FULL_AMOUNT ∨
            op.amountValue = cfg.AI_SUBSCRIPTION_MINI_AMOUNT then
          processSubscriptionTransfer cfg t
        else none
      else if op.toAccount = cfg.SUBSCRIPTION_PAYMENT_ACCOUNT ∧
          op.amountValue = cfg.SUBSCRIPTION_AMOUNT ∧ op.amountSymbol = hbd ∧
          lowerAscii op.memo = subscribeLit ++ lowerAscii cfg.SUBSCRIPTION_ACCOUNT then
        processSubscriptionTransfer cfg t
      else none
    else none
  else none

/-! ## Circuit breaker (src/logger.js, `CircuitBreaker`) -/

/-- The mutable fields of a `CircuitBreaker` instance plus its two
configuration parameters.  Times are epoch milliseconds. -/
structure CBState where
  failureThreshold : Nat
  resetTimeout : Nat
  failureCount : Nat
  isOpen : Bool
  lastFailureTime : Option Nat
  deriving DecidableEq, Repr

/-- A freshly constructed breaker: `failureCount = 0`, closed, no failure
time recorded. -/
def mkCB (failureThreshold resetTimeout : Nat) : CBState :=
  ⟨failureThreshold, resetTimeout, 0, false, none⟩

/-- `success()`: zero the count and close; `lastFailureTime` untouched. -/
def CBState.success (s : CBState) : CBState :=
  { s with failureCount := 0, isOpen := false }

/-- `failure()` at time `now`: increment, record the time, open once the
count reaches the threshold. -/
def CBState.failure (s : CBState) (now : Nat) : CBState :=
  let fc := s.failureCount + 1
  { s with
      failureCount := fc
      lastFailureTime := some now
      isOpen := if s.failureThreshold ≤ fc then true else s.isOpen }

/-- `reset()`: zero the count, close, clear the failure time. -/
def CBState.reset (s : CBState) : CBState :=
  { s with failureCount := 0, isOpen := false, lastFailureTime := none }

/-- Outcome of one `execute` call. -/
inductive CBResult where
  | circuitOpenErr
  | opSuccess
  | opFailure
  deriving DecidableEq, Repr

/-- Running the wrapped operation inside the try block: `opOk` says whether
the awaited operation succeeds this time. -/
def CBState.runOp (s : CBState) (now : Nat) (opOk : Bool) :
    CBState × Bool × CBResult :=
  if opOk then (s.success, true, CBResult.opSuccess)
  else (s.failure now, true, CBResult.opFailure)

/-- `execute(operation)` at time `now`.  Returns the state after the call,
whether the wrapped operation was invoked, and the outcome.  When open and
`Date.now() - lastFailureTime >= resetTimeout`, the breaker resets and lets
the call through; when open inside the cooldown it throws the
circuit-open error without invoking the operation. -/
def CBState.execute (s : CBState) (now : Nat) (opOk : Bool) :
    CBState × Bool × CBResult :=
  if s.isOpen then
    if s.resetTimeout ≤ now - (s.lastFailureTime.getD 0) then
      CBState.runOp s.reset now opOk
    else (s, false, CBResult.circuitOpenErr)
  else CBState.runOp s now opOk

/-- What `getState()` returns. -/
structure CBView where
  isOpen : Bool
  failureCount : Nat
  lastFailureTime : Option Nat
  deriving DecidableEq, Repr

/-- `getState()`. -/
def CBState.getState (s : CBState) : CBView :=
  ⟨s.isOpen, s.failureCount, s.lastFailureTime⟩

/-- A run of consecutive `execute` calls whose wrapped operation fails every
time, at the given call times. -/
def execFailSeq (s : CBState) : List Nat → CBState
  | [] => s
  | t :: ts => execFailSeq (s.execute t false).1 ts

/-- The last element of a list, or a default: used to track
`lastFailureTime` along `execFailSeq`. -/
def lastOr (d : Option Nat) : List Nat → Option Nat
  | [] => d
  | t :: ts => lastOr (some t) ts

/-! ## Retry executor (src/retry.js, `RetryOperation`) -/

/-- `RetryOperation` configuration.  `delay` and `backoffFactor` are JS
numbers used only in `delay * Math.pow(backoffFactor, attempt - 1)`;
modelled as rationals (the deployed factors are 1.5 and 2). -/
structure RetryOp where
  maxAttempts : Nat
  delay : ℚ
  backoffFactor : ℚ

/-- Whether an `Except` is an error. -/
def isErr : Except ε α → Bool
  | Except.error _ => true
  | Except.ok _ => false

/-- The `while (attempt <= maxAttempts)` loop of `execute`, with `attempt`
the current 1-based attempt number and `rem + 1` the number of attempts
still allowed (`rem + 1 = maxAttempts + 1 - attempt`).  `op k` is the result
of the `k`-th invocation of the wrapped operation.  Returns the list of
suspension delays performed (in order), the number of invocations made, and
the final result — `none` models the `undefined` a zero-`maxAttempts` loop
would return (unreachable through the constructor, which defaults
`maxAttempts` to 3). -/
def retryAux (op : Nat → Except ε α) (d b : ℚ) :
    Nat → Nat → List ℚ × Nat × Option (Except ε α)
  | _, 0 => ([], 0, none)
  | attempt, rem + 1 =>
    match op attempt with
    | Except.ok a => ([], 1, some (Except.ok a))
    | Except.error err =>
      if rem = 0 then ([], 1, some (Except.error err))
      else
        let w := d * b ^ (attempt - 1)
        let r := retryAux op d b (attempt + 1) rem
        (w :: r.1, r.2.1 + 1, r.2.2)

/-- `RetryOperation.execute(operation)` (src/retry.js lines 11-39). -/
def RetryOp.execute (r : RetryOp) (op : Nat → Except ε α) :
    List ℚ × Nat × Option (Except ε α) :=
  retryAux op r.delay r.backoffFactor 1 r.maxAttempts

/-! ## Connection supervisor (src/monitor-subscriptions.js lines 30-106) -/

/-- The connection-related fields of a `HiveMonitor`. -/
structure MonitorState where
  isConnected : Bool
  hasObserver : Bool
  reconnectAttempts : Nat
  maxReconnectAttempts : Nat
  reconnectDelay : Nat
  deriving DecidableEq, Repr

/-- The constructor defaults: disconnected, `maxReconnectAttempts = 5`,
`reconnectDelay = 5000` ms. -/
def hiveMonitorInit : MonitorState := ⟨false, false, 0, 5, 5000⟩

/-- `connect()` (lines 66-91): no-op when already connected; otherwise the
circuit-breaker/retry stack attempts to build and start a fresh client —
`ok` abstracts whether that establishment eventually succeeds.  On success
`isConnected := true` and `reconnectAttempts := 0`; on failure the error
propagates (second component `false`). -/
def connect (s : MonitorState) (ok : Bool) : MonitorState × Bool :=
  if s.isConnected then (s, true)
  else if ok then ({ s with isConnected := true, reconnectAttempts := 0 }, true)
  else (s, false)

/-- How one `handleDisconnect` call ends. -/
inductive DisconnectOutcome where
  | reconnected
  | connectFailed
  | reconnectionExhausted
  deriving DecidableEq, Repr

/-- `handleDisconnect()` (lines 93-106): drop the connection and the
observer handle; while the attempt budget remains, increment the counter,
suspend for the fixed `reconnectDelay`, and re-invoke `connect()`;
otherwise throw the fatal reconnection-exhausted error without retrying.
The middle component is the list of suspensions performed. -/
def handleDisconnect (s : MonitorState) (ok : Bool) :
    MonitorState × List Nat × DisconnectOutcome :=
  let s1 := { s with isConnected := false, hasObserver := false }
  if s1.reconnectAttempts < s1.maxReconnectAttempts then
    let s2 := { s1 with reconnectAttempts := s1.reconnectAttempts + 1 }
    let c := connect s2 ok
    (c.1, [s2.reconnectDelay],
      if c.2 then DisconnectOutcome.reconnected else DisconnectOutcome.connectFailed)
  else (s1, [], DisconnectOutcome.reconnectionExhausted)

/-! ## Theorems -/

/-- Helper: the still-active branch of `addSubscription` returns `true`
without touching the table. -/
theorem addSubscription_noop (db : DB) (u : Str) (days : Nat) (now : Date)
    (row : SubRow) (h1 : db u = some row)
    (h2 : dateLtB row.expiration_date now = false) :
    addSubscription db u days now = (db, true) := by
  unfold addSubscription
  rw [h1]
  simp [h2]

/-- C1 — Idempotence of grants.  While a username's stored window is still
active (`now` not after the stored `expiration_date`), `addSubscription`
leaves the table untouched (so the stored `subscription_date`,
`expiration_date` and `active` flag are identical before and after) and
returns success; hence granting the same `(username, days)` twice while the
resulting window is still active changes state exactly once and the second
call leaves `expiration_date` unchanged (second conjunct: the second grant
on a freshly inserted row is a no-op). -/
theorem grant_active_noop (db : DB) (uA uB : Str) (days : Nat)
    (now t1 t2 : Date) (row : SubRow)
    (h1 : db uA = some row) (h2 : dateLtB row.expiration_date now = false)
    (h3 : db uB = none)
    (h4 : dateLtB (jsAddDays t1 days) t2 = false) :
    addSubscription db uA days now = (db, true) ∧
    addSubscription (addSubscription db uB days t1).1 uB days t2
      = ((addSubscription db uB days t1).1, true) := by
  refine ⟨addSubscription_noop db uA days now row h1 h2, ?_⟩
  have hinner : addSubscription db uB days t1
      = (dbUpsert db uB t1 (jsAddDays t1 days), true) := by
    unfold addSubscription
    rw [h3]
  refine addSubscription_noop _ uB days t2 ⟨t1, jsAddDays t1 days, true⟩ ?_ h4
  rw [hinner]
  unfold dbUpsert
  simp

/-- Witness for `grant_active_noop` at a concrete table and dates. -/
theorem grant_active_noop_witness :
    addSubscription
        (dbUpsert emptyDB ['a'] ⟨2026, 0, 1, 0⟩ ⟨2026, 1, 1, 0⟩) ['a'] 31
        ⟨2026, 0, 20, 0⟩
      = (dbUpsert emptyDB ['a'] ⟨2026, 0, 1, 0⟩ ⟨2026, 1, 1, 0⟩, true) ∧
    addSubscription
        (addSubscription (dbUpsert emptyDB ['a'] ⟨2026, 0, 1, 0⟩ ⟨2026, 1, 1, 0⟩)
          ['b'] 31 ⟨2026, 0, 1, 0⟩).1 ['b'] 31 ⟨2026, 0, 15, 0⟩
      = ((addSubscription (dbUpsert emptyDB ['a'] ⟨2026, 0, 1, 0⟩ ⟨2026, 1, 1, 0⟩)
          ['b'] 31 ⟨2026, 0, 1, 0⟩).1, true) :=
  grant_active_noop _ ['a'] ['b'] 31 ⟨2026, 0, 20, 0⟩ ⟨2026, 0, 1, 0⟩
    ⟨2026, 0, 15, 0⟩ ⟨⟨2026, 0, 1, 0⟩, ⟨2026, 1, 1, 0⟩, true⟩
    (by decide) (by decide) (by decide) (by decide)

/-- C2 — Monotonic expiration fails on the code: processing the grant
sequence `[(2026-01-01, 31 days), (2026-10-12, 31 days)]` from an empty
table stores `expiration_date` 2026-12-13 (months are 0-based), while the
maximum over the sequence of `(grant_time + days)` under the merge rule is
`2026-10-12 + 31 days = 2026-11-12`: the lapsed-window branch runs
`setDate(subscriptionDate.getDate() + days)` on the already-advanced date
and overshoots by the length of the grant month. -/
theorem monotonic_expiration_bug :
    (grantSeq emptyDB ['a', 'l', 'i', 'c', 'e']
        [(⟨2026, 0, 1, 0⟩, 31), (⟨2026, 9, 12, 0⟩, 31)]) ['a', 'l', 'i', 'c', 'e']
      = some ⟨⟨2026, 9, 12, 0⟩, ⟨2026, 11, 13, 0⟩, true⟩ ∧
    jsAddDays ⟨2026, 0, 1, 0⟩ 31 = ⟨2026, 1, 1, 0⟩ ∧
    jsAddDays ⟨2026, 9, 12, 0⟩ 31 = ⟨2026, 10, 12, 0⟩ ∧
    (⟨2026, 11, 13, 0⟩ : Date) ≠ ⟨2026, 10, 12, 0⟩ ∧
    (⟨2026, 11, 13, 0⟩ : Date) ≠ ⟨2026, 1, 1, 0⟩ := by
  decide

/-- C3 — Lapsed-window grant postcondition fails on the code: with an
existing record for `bob` whose window lapsed on 2026-09-01 (month 8,
0-based), `addSubscription(bob, 31)` at `now = 2026-10-12` stores
`subscription_date = now` and `active = true` as claimed, but
`expiration_date = 2026-12-13` instead of `candidateExpiration = now + 31
days = 2026-11-12`, because of the second `setDate` on the lapsed-renewal
path. -/
theorem lapsed_grant_bug :
    (addSubscription (dbUpsert emptyDB ['b', 'o', 'b'] ⟨2026, 7, 1, 0⟩ ⟨2026, 8, 1, 0⟩)
        ['b', 'o', 'b'] 31 ⟨2026, 9, 12, 0⟩).1 ['b', 'o', 'b']
      = some ⟨⟨2026, 9, 12, 0⟩, ⟨2026, 11, 13, 0⟩, true⟩ ∧
    (addSubscription (dbUpsert emptyDB ['b', 'o', 'b'] ⟨2026, 7, 1, 0⟩ ⟨2026, 8, 1, 0⟩)
        ['b', 'o', 'b'] 31 ⟨2026, 9, 12, 0⟩).2 = true ∧
    dateLtB ⟨2026, 8, 1, 0⟩ ⟨2026, 9, 12, 0⟩ = true ∧
    jsAddDays ⟨2026, 9, 12, 0⟩ 31 = ⟨2026, 10, 12, 0⟩ ∧
    (⟨2026, 11, 13, 0⟩ : Date) ≠ ⟨2026, 10, 12, 0⟩ := by
  decide

/-- Helper: a run of `execute` calls with a failing operation, started from a
closed breaker whose count can absorb the whole run without exceeding the
threshold, invokes the operation every time and ends with the count advanced
by the run length, open exactly when the threshold has been reached, and
`lastFailureTime` at the last call time. -/
theorem execFailSeq_spec (ts : List Nat) : ∀ s : CBState,
    s.isOpen = false → s.failureCount + ts.length ≤ s.failureThreshold →
    execFailSeq s ts =
      ⟨s.failureThreshold, s.resetTimeout, s.failureCount + ts.length,
       decide (ts ≠ [] ∧ s.failureThreshold ≤ s.failureCount + ts.length),
       lastOr s.lastFailureTime ts⟩ := by
  induction ts with
  | nil =>
    intro s h1 _
    obtain ⟨thr, rt, fc, io, lft⟩ := s
    simp only [CBState.isOpen] at h1
    subst h1
    simp [execFailSeq, lastOr]
  | cons t ts ih =>
    intro s h1 h2
    have hrun : (s.execute t false).1 = s.failure t := by
      simp [CBState.execute, h1, CBState.runOp]
    show execFailSeq (s.execute t false).1 ts = _
    rw [hrun]
    by_cases hts : ts = []
    · subst hts
      show s.failure t = _
      obtain ⟨thr, rt, fc, io, lft⟩ := s
      simp only [CBState.isOpen] at h1
      subst h1
      simp only [CBState.failure, lastOr]
      by_cases h : thr ≤ fc + 1 <;> simp [h]
    · have hlen1 : 1 ≤ ts.length := List.length_pos.mpr hts
      have hopen' : (s.failure t).isOpen = false := by
        simp only [CBState.failure, List.length_cons] at h2 ⊢
        have : ¬ s.failureThreshold ≤ s.failureCount + 1 := by omega
        simp [this, h1]
      have hlen' : (s.failure t).failureCount + ts.length
          ≤ (s.failure t).failureThreshold := by
        simp only [CBState.failure, List.length_cons] at h2 ⊢
        omega
      rw [ih (s.failure t) hopen' hlen']
      simp only [CBState.failure]
      refine CBState.mk.injEq .. ▸ ?_
      refine ⟨rfl, rfl, by simp [List.length_cons]; omega, ?_, rfl⟩
      have hiff : (ts ≠ [] ∧ s.failureThreshold ≤ s.failureCount + 1 + ts.length)
          ↔ (t :: ts ≠ [] ∧ s.failureThreshold ≤ s.failureCount + (t :: ts).length) := by
        simp [hts, List.length_cons]
        omega
      simp [decide_eq_decide.mpr hiff]

/-- C5 — Circuit breaker trip and fail-fast: starting from a fresh breaker
with threshold `n ≥ 1`, after `n` consecutive failed `execute` calls (at
times `ts`, last failure at `tn`) the breaker is open; an `execute` at any
time `t` with `t - tn < resetTimeout` returns the circuit-open error with
the state unchanged and without invoking the operation; an `execute` at any
time `t'` with `resetTimeout ≤ t' - tn` invokes the wrapped operation
again. -/
theorem circuit_breaker_trip (n rt : Nat) (ts : List Nat) (tn t t' : Nat)
    (b b' : Bool) (hn : 1 ≤ n) (hlen : ts.length = n)
    (hlast : lastOr none ts = some tn)
    (hcool : t - tn < rt) (hready : rt ≤ t' - tn) :
    (execFailSeq (mkCB n rt) ts).isOpen = true ∧
    (execFailSeq (mkCB n rt) ts).execute t b
      = (execFailSeq (mkCB n rt) ts, false, CBResult.circuitOpenErr) ∧
    ((execFailSeq (mkCB n rt) ts).execute t' b').2.1 = true := by
  have hts : ts ≠ [] := by
    intro h
    rw [h] at hlen
    simp at hlen
    omega
  have hspec := execFailSeq_spec ts (mkCB n rt) rfl (by simp [mkCB, hlen])
  rw [hspec]
  simp only [mkCB, hlen, Nat.zero_add, hlast]
  have hdec : decide (ts ≠ [] ∧ n ≤ n) = true := by simp [hts]
  rw [hdec]
  refine ⟨rfl, ?_, ?_⟩
  · simp only [CBState.execute]
    have : ¬ rt ≤ t - tn := by omega
    simp [this]
  · simp only [CBState.execute, Option.getD]
    simp only [hready, if_true]
    cases b' <;> simp [CBState.runOp]

/-- Witness for `circuit_breaker_trip`: threshold 2, reset timeout 10,
failures at times 3 and 4, cooled-down probe at 8, post-timeout probe at
20. -/
theorem circuit_breaker_trip_witness :
    (execFailSeq (mkCB 2 10) [3, 4]).isOpen = true ∧
    (execFailSeq (mkCB 2 10) [3, 4]).execute 8 true
      = (execFailSeq (mkCB 2 10) [3, 4], false, CBResult.circuitOpenErr) ∧
    ((execFailSeq (mkCB 2 10) [3, 4]).execute 20 false).2.1 = true :=
  circuit_breaker_trip 2 10 [3, 4] 4 8 20 true false (by decide) (by decide)
    (by decide) (by decide) (by decide)

/-- C6 (amended) — Optimistic half-open call: an open breaker whose cooldown
has elapsed lets the next `execute` through; if the wrapped operation fails,
the breaker records `lastFailureTime = now` and restarts the failure count
at 1, so it is open again immediately only when `failureThreshold ≤ 1` —
with a larger threshold it stays closed until the threshold is reached
afresh. -/
theorem circuit_breaker_probe (s : CBState) (tn now : Nat)
    (hopen : s.isOpen = true) (hlft : s.lastFailureTime = some tn)
    (helapsed : s.resetTimeout ≤ now - tn) :
    s.execute now false
      = (⟨s.failureThreshold, s.resetTimeout, 1,
          decide (s.failureThreshold ≤ 1), some now⟩,
         true, CBResult.opFailure) := by
  simp only [CBState.execute, hopen, hlft, Option.getD, if_true]
  simp only [helapsed, if_true]
  simp only [CBState.runOp, CBState.reset, CBState.failure, if_neg]
  by_cases h : s.failureThreshold ≤ 1 <;> simp [h]

/-- Witness for `circuit_breaker_probe`: breaker with threshold 1 opened by
a failure at time 0, probed at time 15 with reset timeout 10. -/
theorem circuit_breaker_probe_witness :
    (execFailSeq (mkCB 1 10) [0]).execute 15 false
      = (⟨1, 10, 1, true, some 15⟩, true, CBResult.opFailure) := by
  have h := circuit_breaker_probe (execFailSeq (mkCB 1 10) [0]) 0 15
    (by decide) (by decide) (by decide)
  rw [h]
  decide

/-- C6 counterexample — the claim as stated is false: a breaker with
threshold 2 opened by failures at times 0 and 1 (reset timeout 10), probed
at time 20 (cooldown elapsed) with a failing operation, does invoke the
operation, but afterwards `isOpen = false` — the breaker does **not** reopen
immediately (the cooldown reset zeroed the count, so the new failure only
brings it to 1 < 2); only `lastFailureTime` is reset to the probe time. -/
theorem circuit_breaker_probe_cex :
    (execFailSeq (mkCB 2 10) [0, 1]).isOpen = true ∧
    (execFailSeq (mkCB 2 10) [0, 1]).lastFailureTime = some 1 ∧
    ((execFailSeq (mkCB 2 10) [0, 1]).execute 20 false).2.1 = true ∧
    (((execFailSeq (mkCB 2 10) [0, 1]).execute 20 false).1).isOpen = false ∧
    (((execFailSeq (mkCB 2 10) [0, 1]).execute 20 false).1).lastFailureTime
      = some 20 := by
  decide

/-- C10 (amended) — `success()` frame: a successful `execute` on a breaker
that is not open zeroes `failureCount`, closes the breaker, and leaves
`lastFailureTime` untouched; so after an earlier failure (recorded at `t0`)
followed by a success through the closed breaker, `getState()` reports
`isOpen = false`, `failureCount = 0`, and the old non-null
`lastFailureTime`.  (The cooldown-expiry reset path, excluded by `hclosed`,
instead nulls `lastFailureTime` before the operation runs.) -/
theorem cb_success_frame (s : CBState) (now t0 : Nat)
    (hclosed : s.isOpen = false) (hlft : s.lastFailureTime = some t0) :
    s.execute now true
      = ({ s with failureCount := 0, isOpen := false }, true, CBResult.opSuccess) ∧
    ((s.execute now true).1).getState = ⟨false, 0, some t0⟩ := by
  have h : s.execute now true = (s.success, true, CBResult.opSuccess) := by
    simp [CBState.execute, hclosed, CBState.runOp]
  refine ⟨h, ?_⟩
  rw [h]
  simp [CBState.success, CBState.getState, hlft]

/-- Witness for `cb_success_frame`: breaker with threshold 3 after one
failure at time 5 (still closed), successful call at time 7. -/
theorem cb_success_frame_witness :
    (execFailSeq (mkCB 3 10) [5]).execute 7 true
      = ({ execFailSeq (mkCB 3 10) [5] with failureCount := 0, isOpen := false },
         true, CBResult.opSuccess) ∧
    (((execFailSeq (mkCB 3 10) [5]).execute 7 true).1).getState
      = ⟨false, 0, some 5⟩ :=
  cb_success_frame (execFailSeq (mkCB 3 10) [5]) 7 5 (by decide) (by decide)

/-- C10 counterexample — the claim's closing universal is false: a breaker
with threshold 1 that failed once (at time 0, reset timeout 10) and then
succeeded at time 15 has failed at least once and then succeeded, yet
`getState()` reports `lastFailureTime = none` — the success arrived through
the cooldown-expiry reset path, which nulls `lastFailureTime`. -/
theorem cb_success_frame_cex :
    (execFailSeq (mkCB 1 10) [0]).isOpen = true ∧
    (execFailSeq (mkCB 1 10) [0]).lastFailureTime = some 0 ∧
    ((execFailSeq (mkCB 1 10) [0]).execute 15 true).2
      = (true, CBResult.opSuccess) ∧
    (((execFailSeq (mkCB 1 10) [0]).execute 15 true).1).getState
      = ⟨false, 0, none⟩ := by
  decide

/-- Helper: when every invocation fails, the retry loop starting at
`attempt` with `left + 1` attempts allowed performs the full backoff
schedule and surfaces the error of the last attempt. -/
theorem retryAux_all_fail (op : Nat → Except ε α) (d b : ℚ) (e : Nat → ε)
    (hop : ∀ k, op k = Except.error (e k)) :
    ∀ left attempt : Nat, 1 ≤ attempt →
    retryAux op d b attempt (left + 1)
      = ((List.range left).map (fun i => d * b ^ (attempt - 1 + i)),
         left + 1, some (Except.error (e (attempt + left)))) := by
  intro left
  induction left with
  | zero =>
    intro attempt _
    simp [retryAux, hop attempt]
  | succ left ih =>
    intro attempt h
    have hstep : retryAux op d b attempt (left + 1 + 1)
        = (d * b ^ (attempt - 1) :: (retryAux op d b (attempt + 1) (left + 1)).1,
           (retryAux op d b (attempt + 1) (left + 1)).2.1 + 1,
           (retryAux op d b (attempt + 1) (left + 1)).2.2) := by
      simp [retryAux, hop attempt]
    rw [hstep, ih (attempt + 1) (by omega)]
    have hexp : ∀ i : Nat, attempt - 1 + (i + 1) = attempt + 1 - 1 + i := by
      intro i
      omega
    have hrange : (List.range (left + 1)).map (fun i => d * b ^ (attempt - 1 + i))
        = d * b ^ (attempt - 1) ::
          (List.range left).map (fun i => d * b ^ (attempt + 1 - 1 + i)) := by
      rw [List.range_succ_eq_map, List.map_cons, List.map_map]
      refine congrArg₂ _ (by rw [Nat.add_zero]) ?_
      refine List.map_congr_left ?_
      intro i _
      simp only [Function.comp]
      rw [hexp i]
    rw [hrange]
    refine congrArg₂ _ rfl (congrArg₂ _ rfl ?_)
    have : attempt + (left + 1) = attempt + 1 + left := by omega
    rw [this]

/-- Helper: when attempts `attempt, ..., j - 1` fail and attempt `j`
succeeds with `a` (within the allowed budget), the retry loop returns
`ok a`. -/
theorem retryAux_first_ok (op : Nat → Except ε α) (d b : ℚ) :
    ∀ left attempt j : Nat, ∀ a : α, attempt ≤ j → j ≤ attempt + left →
    (∀ k, attempt ≤ k → k < j → isErr (op k) = true) → op j = Except.ok a →
    (retryAux op d b attempt (left + 1)).2.2 = some (Except.ok a) := by
  intro left
  induction left with
  | zero =>
    intro attempt j a h1 h2 _ hok
    have : j = attempt := by omega
    subst this
    simp [retryAux, hok]
  | succ left ih =>
    intro attempt j a h1 h2 hfail hok
    by_cases hja : j = attempt
    · subst hja
      simp [retryAux, hok]
    · have hlt : attempt < j := by omega
      have herr : isErr (op attempt) = true := hfail attempt le_rfl hlt
      obtain ⟨err, herr'⟩ : ∃ err, op attempt = Except.error err := by
        cases hE : op attempt with
        | ok v =>
          rw [hE] at herr
          simp [isErr] at herr
        | error err => exact ⟨err, rfl⟩
      have hstep : (retryAux op d b attempt (left + 1 + 1)).2.2
          = (retryAux op d b (attempt + 1) (left + 1)).2.2 := by
        simp [retryAux, herr']
      rw [hstep]
      refine ih (attempt + 1) j a (by omega) (by omega) ?_ hok
      intro k hk1 hk2
      exact hfail k (by omega) hk2

/-- C7 — Retry attempt count and backoff schedule: an operation that fails
on every invocation is invoked exactly `maxAttempts` times; the suspensions
performed between attempts are exactly `delay * backoffFactor ^ (k - 1)` for
`k = 1, ..., maxAttempts - 1` (so none after the final failed attempt, whose
error surfaces immediately). -/
theorem retry_schedule (r : RetryOp) (op : Nat → Except ε α) (e : Nat → ε)
    (hm : 1 ≤ r.maxAttempts) (hop : ∀ k, op k = Except.error (e k)) :
    r.execute op
      = ((List.range (r.maxAttempts - 1)).map
           (fun i => r.delay * r.backoffFactor ^ i),
         r.maxAttempts, some (Except.error (e r.maxAttempts))) := by
  obtain ⟨left, hleft⟩ : ∃ left, r.maxAttempts = left + 1 :=
    ⟨r.maxAttempts - 1, by omega⟩
  unfold RetryOp.execute
  rw [hleft, retryAux_all_fail op r.delay r.backoffFactor e hop left 1 le_rfl]
  rw [Nat.add_comm 1 left]
  simp

/-- Witness for `retry_schedule`: 3 attempts, delay 1000, factor 2. -/
theorem retry_schedule_witness :
    (RetryOp.mk 3 1000 2).execute (fun k => (Except.error k : Except Nat Unit))
      = ([1000, 2000], 3, some (Except.error 3)) := by
  rw [retry_schedule (RetryOp.mk 3 1000 2)
    (fun k => (Except.error k : Except Nat Unit)) (fun k => k)
    (by decide) (fun k => rfl)]
  norm_num [List.range_succ]

/-- C8 — Retry result and exhaustion: `execute` returns the result of the
first attempt that succeeds; and when every one of the `maxAttempts`
attempts fails, it fails carrying the error of the last attempt (the
`RetryExhausted` outcome of the spec taxonomy: the code rethrows the last
underlying error itself). -/
theorem retry_result (r r' : RetryOp) (op op' : Nat → Except ε α)
    (j : Nat) (a : α) (e : Nat → ε)
    (hm : 1 ≤ r.maxAttempts) (hj1 : 1 ≤ j) (hjm : j ≤ r.maxAttempts)
    (hfail : ∀ k, 1 ≤ k → k < j → isErr (op k) = true)
    (hok : op j = Except.ok a)
    (hm' : 1 ≤ r'.maxAttempts) (hop' : ∀ k, op' k = Except.error (e k)) :
    (r.execute op).2.2 = some (Except.ok a) ∧
    (r'.execute op').2.2 = some (Except.error (e r'.maxAttempts)) := by
  constructor
  · obtain ⟨left, hleft⟩ : ∃ left, r.maxAttempts = left + 1 :=
      ⟨r.maxAttempts - 1, by omega⟩
    unfold RetryOp.execute
    rw [hleft]
    exact retryAux_first_ok op r.delay r.backoffFactor left 1 j a hj1
      (by omega) hfail hok
  · obtain ⟨left, hleft⟩ : ∃ left, r'.maxAttempts = left + 1 :=
      ⟨r'.maxAttempts - 1, by omega⟩
    unfold RetryOp.execute
    rw [hleft, retryAux_all_fail op' r'.delay r'.backoffFactor e hop' left 1 le_rfl]
    rw [Nat.add_comm 1 left]

/-- Witness for `retry_result`: an operation succeeding on attempt 2 of 3
returns its result; an always-failing operation over 2 attempts surfaces
the attempt-2 error. -/
theorem retry_result_witness :
    ((RetryOp.mk 3 1 2).execute
        (fun k => if k = 2 then Except.ok 42 else (Except.error k : Except Nat Nat))).2.2
      = some (Except.ok 42) ∧
    ((RetryOp.mk 2 1 2).execute
        (fun k => (Except.error k : Except Nat Nat))).2.2
      = some (Except.error 2) :=
  retry_result (RetryOp.mk 3 1 2) (RetryOp.mk 2 1 2)
    (fun k => if k = 2 then Except.ok 42 else (Except.error k : Except Nat Nat))
    (fun k => (Except.error k : Except Nat Nat)) 2 42 (fun k => k)
    (by decide) (by decide) (by decide)
    (by
      intro k h1 h2
      have : k = 1 := by omega
      subst this
      rfl)
    (by rfl) (by decide) (fun k => rfl)

/-- C9 — Reconnect budget: while `reconnectAttempts < maxReconnectAttempts`,
`handleDisconnect` increments the counter, suspends once for the fixed
`reconnectDelay`, and re-invokes `connect()`, which on success resets the
counter to 0; once the budget is exhausted it performs no suspension and no
retry and raises the fatal reconnection-exhausted error.  The defaults are
`maxReconnectAttempts = 5` and `reconnectDelay = 5000` ms. -/
theorem reconnect_budget (s s' : MonitorState) (ok ok' : Bool)
    (h : s.reconnectAttempts < s.maxReconnectAttempts)
    (h' : s'.maxReconnectAttempts ≤ s'.reconnectAttempts) :
    handleDisconnect s ok
      = (if ok then
           { s with isConnected := true, hasObserver := false, reconnectAttempts := 0 }
         else
           { s with
              isConnected := false
              hasObserver := false
              reconnectAttempts := s.reconnectAttempts + 1 },
         [s.reconnectDelay],
         if ok then DisconnectOutcome.reconnected else DisconnectOutcome.connectFailed) ∧
    handleDisconnect s' ok'
      = ({ s' with isConnected := false, hasObserver := false }, [],
         DisconnectOutcome.reconnectionExhausted) ∧
    hiveMonitorInit.maxReconnectAttempts = 5 ∧
    hiveMonitorInit.reconnectDelay = 5000 := by
  refine ⟨?_, ?_, rfl, rfl⟩
  · cases ok <;> simp [handleDisconnect, connect, h]
  · have : ¬ s'.reconnectAttempts < s'.maxReconnectAttempts := by omega
    simp [handleDisconnect, this]

/-- Witness for `reconnect_budget`: the freshly constructed monitor with a
successful reconnect, and a monitor with 5 used attempts. -/
theorem reconnect_budget_witness :
    handleDisconnect hiveMonitorInit true
      = (if true then
           { hiveMonitorInit with
              isConnected := true
              hasObserver := false
              reconnectAttempts := 0 }
         else
           { hiveMonitorInit with
              isConnected := false
              hasObserver := false
              reconnectAttempts := hiveMonitorInit.reconnectAttempts + 1 },
         [hiveMonitorInit.reconnectDelay],
         if true then DisconnectOutcome.reconnected else DisconnectOutcome.connectFailed) ∧
    handleDisconnect { hiveMonitorInit with reconnectAttempts := 5 } false
      = ({ { hiveMonitorInit with reconnectAttempts := 5 } with
            isConnected := false
            hasObserver := false }, [],
         DisconnectOutcome.reconnectionExhausted) ∧
    hiveMonitorInit.maxReconnectAttempts = 5 ∧
    hiveMonitorInit.reconnectDelay = 5000 :=
  reconnect_budget hiveMonitorInit { hiveMonitorInit with reconnectAttempts := 5 }
    true false (by decide) (by decide)

/-- Helper: what a successful memo match gives back. -/
theorem memoParse_some (memo w : Str) (h : memoParse memo = some w) :
    memo = subscribeLit ++ w ∧ w ≠ [] ∧ w.all isWordChar = true := by
  unfold memoParse at h
  by_cases hc : memo.take 10 = subscribeLit ∧ memo.drop 10 ≠ [] ∧
      (memo.drop 10).all isWordChar
  · rw [if_pos hc] at h
    obtain ⟨h1, h2, h3⟩ := hc
    injection h with h4
    subst h4
    refine ⟨?_, h2, h3⟩
    conv_lhs => rw [← List.take_append_drop 10 memo]
    rw [h1]
  · rw [if_neg hc] at h
    exact absurd h (by simp)

/-- Helper: the memo regex accepts `subscribe:` followed by a non-empty
word-character suffix, capturing the suffix. -/
theorem memoParse_append (w : Str) (hw : w ≠ []) (hall : w.all isWordChar = true) :
    memoParse (subscribeLit ++ w) = some w := by
  unfold memoParse
  have hlen : subscribeLit.length = 10 := rfl
  have ht : (subscribeLit ++ w).take 10 = subscribeLit := by
    rw [← hlen, List.take_left]
  have hd : (subscribeLit ++ w).drop 10 = w := by
    rw [← hlen, List.drop_left]
  rw [ht, hd, if_pos ⟨rfl, hw, hall⟩]

/-- Helper: `toLowerCase` distributes over concatenation. -/
theorem lowerAscii_append (a b : Str) :
    lowerAscii (a ++ b) = lowerAscii a ++ lowerAscii b :=
  List.map_append toLowerChar a b

/-- Helper: the literal `subscribe:` is already lowercase. -/
theorem lowerAscii_subscribe : lowerAscii subscribeLit = subscribeLit := by
  decide

/-- C4 counterexample — the claim as stated is false: with payment account
`pay`, product amount 5 HBD and subscription account `myaccount`, the memo
`SUBSCRIBE:myaccount` equals `subscribe:myaccount` under case-insensitive
comparison (first conjunct), yet the pipeline issues no grant: the memo
regex in `processSubscriptionTransfer` is case-sensitive on the
`subscribe:` prefix. -/
theorem classifier_memo_case_cex :
    lowerAscii
        ['S', 'U', 'B', 'S', 'C', 'R', 'I', 'B', 'E', ':',
         'm', 'y', 'a', 'c', 'c', 'o', 'u', 'n', 't']
      = subscribeLit ++ lowerAscii ['m', 'y', 'a', 'c', 'c', 'o', 'u', 'n', 't'] ∧
    processOperation
        ⟨['p', 'a', 'y'], ['a', 'i', 'p'], 5,
         ['m', 'y', 'a', 'c', 'c', 'o', 'u', 'n', 't'], 20, 10, 30, 7⟩
        ⟨true, transferLit, ['u'], ['p', 'a', 'y'], 5, hbd,
         ['S', 'U', 'B', 'S', 'C', 'R', 'I', 'B', 'E', ':',
          'm', 'y', 'a', 'c', 'c', 'o', 'u', 'n', 't']⟩
      = none := by
  decide

/-- C4 (amended) — Classifier memo matching: for a transfer-shaped operation
to the configured payment account with the exact product amount and the HBD
settlement currency, a 31-day grant to the sender is issued **iff** the memo
is the lowercase literal `subscribe:` followed by a non-empty word-character
account that matches the configured account case-insensitively (the
`subscribe:` prefix itself is matched case-sensitively by the downstream
regex, so only the account part is case-insensitive); and any mismatch on
amount, currency, or destination yields no action and no error. -/
theorem classifier_memo_case (cfg : Config) (op op' op'' : RawOp)
    (h1 : op.isArrayOp = true) (h2 : op.opType = transferLit)
    (h3 : op.toAccount = cfg.SUBSCRIPTION_PAYMENT_ACCOUNT)
    (h4 : cfg.SUBSCRIPTION_PAYMENT_ACCOUNT ≠ cfg.AI_PAYMENT_ACCOUNT)
    (h5 : op.amountValue = cfg.SUBSCRIPTION_AMOUNT) (h6 : op.amountSymbol = hbd)
    (h1' : op'.toAccount = cfg.SUBSCRIPTION_PAYMENT_ACCOUNT)
    (h2' : op'.amountValue ≠ cfg.SUBSCRIPTION_AMOUNT ∨ op'.amountSymbol ≠ hbd)
    (h3' : op''.toAccount ≠ cfg.SUBSCRIPTION_PAYMENT_ACCOUNT)
    (h4' : op''.toAccount ≠ cfg.AI_PAYMENT_ACCOUNT) :
    (processOperation cfg op = some (op.sender, 31) ↔
      ∃ w, op.memo = subscribeLit ++ w ∧ w ≠ [] ∧ w.all isWordChar = true ∧
        lowerAscii w = lowerAscii cfg.SUBSCRIPTION_ACCOUNT) ∧
    processOperation cfg op' = none ∧
    processOperation cfg op'' = none := by
  refine ⟨?_, ?_, ?_⟩
  · simp only [processOperation, h1, if_true]
    rw [if_pos ⟨Or.inl h2, Or.inl h3⟩]
    have hnai : ¬ (op.toAccount = cfg.AI_PAYMENT_ACCOUNT ∧ op.amountSymbol = hbd) := by
      rw [h3]
      rintro ⟨hc, -⟩
      exact h4 hc
    rw [if_neg hnai]
    by_cases hL1 : lowerAscii op.memo
        = subscribeLit ++ lowerAscii cfg.SUBSCRIPTION_ACCOUNT
    · rw [if_pos ⟨h3, h5, h6, hL1⟩]
      unfold processSubscriptionTransfer
      dsimp only
      have hn1 : ¬ (op.toAccount = cfg.AI_PAYMENT_ACCOUNT ∧ (hbd : Str) = hbd ∧
          op.amountValue = cfg.AI_SUBSCRIPTION_FULL_AMOUNT) := by
        rw [h3]
        rintro ⟨hc, -, -⟩
        exact h4 hc
      have hn2 : ¬ (op.toAccount = cfg.AI_PAYMENT_ACCOUNT ∧ (hbd : Str) = hbd ∧
          op.amountValue = cfg.AI_SUBSCRIPTION_MINI_AMOUNT) := by
        rw [h3]
        rintro ⟨hc, -, -⟩
        exact h4 hc
      rw [if_neg hn1, if_neg hn2, if_pos ⟨h3, h5, rfl⟩]
      constructor
      · intro hsome
        cases hmp : memoParse op.memo with
        | none =>
          rw [hmp] at hsome
          simp at hsome
        | some acct =>
          rw [hmp] at hsome
          dsimp only at hsome
          by_cases hlw : lowerAscii acct = lowerAscii cfg.SUBSCRIPTION_ACCOUNT
          · obtain ⟨hmem, hne, hall⟩ := memoParse_some _ _ hmp
            exact ⟨acct, hmem, hne, hall, hlw⟩
          · rw [if_neg hlw] at hsome
            exact absurd hsome (by simp)
      · rintro ⟨w, hmem, hw, hall, hlow⟩
        rw [hmem, memoParse_append w hw hall]
        dsimp only
        rw [if_pos hlow]
    · have hnstd : ¬ (op.toAccount = cfg.SUBSCRIPTION_PAYMENT_ACCOUNT ∧
          op.amountValue = cfg.SUBSCRIPTION_AMOUNT ∧ op.amountSymbol = hbd ∧
          lowerAscii op.memo = subscribeLit ++ lowerAscii cfg.SUBSCRIPTION_ACCOUNT) := by
        rintro ⟨-, -, -, hc⟩
        exact hL1 hc
      rw [if_neg hnstd]
      constructor
      · intro hsome
        exact absurd hsome (by simp)
      · rintro ⟨w, hmem, hw, hall, hlow⟩
        exfalso
        apply hL1
        rw [hmem, lowerAscii_append, lowerAscii_subscribe, hlow]
  · simp only [processOperation]
    by_cases hA : op'.isArrayOp
    · simp only [hA, if_true]
      by_cases hout : (op'.opType = transferLit ∨ op'.opType = fillRecurrentLit) ∧
          (op'.toAccount = cfg.SUBSCRIPTION_PAYMENT_ACCOUNT ∨
           op'.toAccount = cfg.AI_PAYMENT_ACCOUNT)
      · rw [if_pos hout]
        have hnai : ¬ (op'.toAccount = cfg.AI_PAYMENT_ACCOUNT ∧
            op'.amountSymbol = hbd) := by
          rw [h1']
          rintro ⟨hc, -⟩
          exact h4 hc
        rw [if_neg hnai]
        have hnstd : ¬ (op'.toAccount = cfg.SUBSCRIPTION_PAYMENT_ACCOUNT ∧
            op'.amountValue = cfg.SUBSCRIPTION_AMOUNT ∧ op'.amountSymbol = hbd ∧
            lowerAscii op'.memo
              = subscribeLit ++ lowerAscii cfg.SUBSCRIPTION_ACCOUNT) := by
          rintro ⟨-, hv, hs, -⟩
          rcases h2' with h | h
          exacts [h hv, h hs]
        rw [if_neg hnstd]
      · rw [if_neg hout]
    · simp [hA]
  · simp only [processOperation]
    by_cases hA : op''.isArrayOp
    · simp only [hA, if_true]
      have hout : ¬ ((op''.opType = transferLit ∨ op''.opType = fillRecurrentLit) ∧
          (op''.toAccount = cfg.SUBSCRIPTION_PAYMENT_ACCOUNT ∨
           op''.toAccount = cfg.AI_PAYMENT_ACCOUNT)) := by
        rintro ⟨-, hc | hc⟩
        exacts [h3' hc, h4' hc]
      rw [if_neg hout]
    · simp [hA]

/-- Witness for `classifier_memo_case`: concrete config (payment account
`pay`, amount 5, subscription account `myaccount`), a matching lowercase
memo, an amount-mismatch operation, and a destination-mismatch operation. -/
theorem classifier_memo_case_witness :
    (processOperation
        ⟨['p', 'a', 'y'], ['a', 'i', 'p'], 5,
         ['m', 'y', 'a', 'c', 'c', 'o', 'u', 'n', 't'], 20, 10, 30, 7⟩
        ⟨true, transferLit, ['u'], ['p', 'a', 'y'], 5, hbd,
         ['s', 'u', 'b', 's', 'c', 'r', 'i', 'b', 'e', ':',
          'm', 'y', 'a', 'c', 'c', 'o', 'u', 'n', 't']⟩
        = some (['u'], 31) ↔
      ∃ w, ['s', 'u', 'b', 's', 'c', 'r', 'i', 'b', 'e', ':',
            'm', 'y', 'a', 'c', 'c', 'o', 'u', 'n', 't'] = subscribeLit ++ w ∧
        w ≠ [] ∧ w.all isWordChar = true ∧
        lowerAscii w = lowerAscii ['m', 'y', 'a', 'c', 'c', 'o', 'u', 'n', 't']) ∧
    processOperation
        ⟨['p', 'a', 'y'], ['a', 'i', 'p'], 5,
         ['m', 'y', 'a', 'c', 'c', 'o', 'u', 'n', 't'], 20, 10, 30, 7⟩
        ⟨true, transferLit, ['u'], ['p', 'a', 'y'], 6, hbd,
         ['s', 'u', 'b', 's', 'c', 'r', 'i', 'b', 'e', ':',
          'm', 'y', 'a', 'c', 'c', 'o', 'u', 'n', 't']⟩
      = none ∧
    processOperation
        ⟨['p', 'a', 'y'], ['a', 'i', 'p'], 5,
         ['m', 'y', 'a', 'c', 'c', 'o', 'u', 'n', 't'], 20, 10, 30, 7⟩
        ⟨true, transferLit, ['u'], ['x'], 5, hbd,
         ['s', 'u', 'b', 's', 'c', 'r', 'i', 'b', 'e', ':',
          'm', 'y', 'a', 'c', 'c', 'o', 'u', 'n', 't']⟩
      = none :=
  classifier_memo_case
    ⟨['p', 'a', 'y'], ['a', 'i', 'p'], 5,
     ['m', 'y', 'a', 'c', 'c', 'o', 'u', 'n', 't'], 20, 10, 30, 7⟩
    ⟨true, transferLit, ['u'], ['p', 'a', 'y'], 5, hbd,
     ['s', 'u', 'b', 's', 'c', 'r', 'i', 'b', 'e', ':',
      'm', 'y', 'a', 'c', 'c', 'o', 'u', 'n', 't']⟩
    ⟨true, transferLit, ['u'], ['p', 'a', 'y'], 6, hbd,
     ['s', 'u', 'b', 's', 'c', 'r', 'i', 'b', 'e', ':',
      'm', 'y', 'a', 'c', 'c', 'o', 'u', 'n', 't']⟩
    ⟨true, transferLit, ['u'], ['x'], 5, hbd,
     ['s', 'u', 'b', 's', 'c', 'r', 'i', 'b', 'e', ':',
      'm', 'y', 'a', 'c', 'c', 'o', 'u', 'n', 't']⟩
    (by decide) (by decide) (by decide) (by decide) (by decide) (by decide)
    (by decide) (by decide) (by decide) (by decide)
